import Mathlib

/-!
Shallow embedding of the estat-mcp response-normalization, retry, and
pagination layer (src/estat_mcp/client.py, models.py, server.py).

Python values that flow through the parsers are modelled by the inductive
type `PyVal` (JSON-decoded data: None, bool, int, float, str, list, dict).
Python floats are modelled as exact rationals: every value appearing in the
claims is an exactly representable decimal. Python exceptions are modelled
by `PyExc`; a function that can raise returns `Except PyExc _`.
-/

namespace EstatMCP

/-- Model of a decoded JSON / Python value. Dicts are association lists in
insertion order (keys unique in decoded JSON). -/
inductive PyVal : Type where
  | vNone : PyVal
  | vBool : Bool → PyVal
  | vInt : Int → PyVal
  | vFloat : ℚ → PyVal
  | vStr : String → PyVal
  | vList : List PyVal → PyVal
  | vDict : List (String × PyVal) → PyVal

/-- Python truthiness (`if obj:`): None/False/0/0.0/empty string/empty
list/empty dict are falsy, everything else truthy. -/
def PyVal.truthy : PyVal → Bool
  | .vNone => false
  | .vBool b => b
  | .vInt n => n != 0
  | .vFloat q => q != 0
  | .vStr s => s != ""
  | .vList xs => !xs.isEmpty
  | .vDict kvs => !kvs.isEmpty

/-- Model of Python `dict.get(k)`: the value stored under the first
occurrence of `k`, if any. -/
def dget (kvs : List (String × PyVal)) (k : String) : Option PyVal :=
  (kvs.find? (fun kv => kv.1 == k)).map (fun kv => kv.2)

/-- Embedding of `_ensure_list` (client.py lines 61-67): wrap a single
truthy value in a list; pass a list through; falsy values give `[]`. -/
def ensure_list (obj : PyVal) : List PyVal :=
  match obj with
  | .vList xs => xs
  | x => if x.truthy then [x] else []

/-- Value of an ASCII digit character, if it is one. -/
def digitVal (c : Char) : Option Nat :=
  if c.isDigit then some (c.toNat - 48) else none

/-- Accumulate a decimal digit string left to right. -/
def decDigitsAux : List Char → Nat → Option Nat
  | [], acc => some acc
  | c :: cs, acc =>
    match digitVal c with
    | some d => decDigitsAux cs (acc * 10 + d)
    | none => none

/-- Parse a nonempty all-digit character list as a natural number. -/
def decDigits : List Char → Option Nat
  | [] => none
  | cs => decDigitsAux cs 0

/-- Modelled primitive: the decimal fragment of Python `int(str)` —
an optional sign followed by one or more ASCII digits parses; anything
else raises ValueError (modelled as `none`). -/
def py_int_parse (s : String) : Option Int :=
  match s.data with
  | '-' :: rest => (decDigits rest).map (fun n => -(n : Int))
  | '+' :: rest => (decDigits rest).map (fun n => (n : Int))
  | cs => (decDigits cs).map (fun n => (n : Int))

/-- Split a character list on the dot character, like `str.split(".")`. -/
def splitDot : List Char → List (List Char)
  | [] => [[]]
  | c :: cs =>
    let rest := splitDot cs
    if c = '.' then [] :: rest
    else
      match rest with
      | r :: rs => (c :: r) :: rs
      | [] => [[c]]

/-- Modelled primitive: the plain-decimal fragment of Python `float(str)` —
`digits.digits` (or bare digits) parses to the exact decimal value;
anything else raises ValueError (modelled as `none`). -/
def py_float_parse (s : String) : Option ℚ :=
  match splitDot s.data with
  | [a, b] =>
    match decDigits a, decDigits b with
    | some i, some f => some ((i : ℚ) + (f : ℚ) / (10 : ℚ) ^ b.length)
    | _, _ => none
  | [a] => (decDigits a).map (fun n => (n : ℚ))
  | _ => none

/-- Special values treated as missing data (`_MISSING_VALUES`,
client.py line 58). -/
def MISSING_VALUES : List String := ["-", "***", "x", "X", "...", "…"]

/-- Result of `_parse_numeric` when it does not return None. -/
inductive NumVal : Type where
  | pInt : Int → NumVal
  | pFloat : ℚ → NumVal
  | pStr : String → NumVal
deriving DecidableEq

/-- Embedding of `_parse_numeric` (client.py lines 70-81), parameterized
over the primitive `int()` and `float()` string parsers: sentinel check
first, then integer parse, then float parse, then the original string.
The function is total (`None` is the sentinel result, not an error):
the Python code catches every parse exception. -/
def parse_numeric (intP : String → Option Int) (floatP : String → Option ℚ)
    (raw : String) : Option NumVal :=
  if raw ∈ MISSING_VALUES then none
  else
    match intP raw with
    | some n => some (.pInt n)
    | none =>
      match floatP raw with
      | some q => some (.pFloat q)
      | none => some (.pStr raw)

example : parse_numeric py_int_parse py_float_parse "520999398" =
    some (.pInt 520999398) := rfl

example : parse_numeric py_int_parse py_float_parse "99.5" =
    some (.pFloat (199 / 2)) := by
  rw [show ((199 : ℚ) / 2) = ((99 : ℕ) : ℚ) + ((5 : ℕ) : ℚ) / (10 : ℚ) ^ (1 : ℕ) by
    norm_num]
  rfl

example : parse_numeric py_int_parse py_float_parse "N/A" =
    some (.pStr "N/A") := rfl

example : parse_numeric py_int_parse py_float_parse "…" = none := by decide

example : ensure_list (.vDict [("a", .vInt 1)]) = [.vDict [("a", .vInt 1)]] := rfl

example : ensure_list .vNone = [] := rfl

/-- Model of the Python exceptions that client.py can raise or catch.
`estatAPIError msg cause` is `EstatAPIError(msg)` raised `from cause`. -/
inductive PyExc : Type where
  | httpStatusError : Nat → PyExc
  | timeoutExc : PyExc
  | estatAPIError : PyVal → Option PyExc → PyExc
  | valueError : String → PyExc
  | typeError : PyExc

/-- The httpx exception-class test `isinstance(last_exc, httpx.HTTPError)`:
both `HTTPStatusError` and `TimeoutException` derive from `httpx.HTTPError`;
`EstatAPIError` and `ValueError` do not. -/
def PyExc.isHTTPError : PyExc → Bool
  | .httpStatusError _ => true
  | .timeoutExc => true
  | _ => false

/-- Modelled primitive: `str(exc)` for the exceptions the client builds.
An `HTTPStatusError` is constructed with message `f"HTTP {status}"`
(client.py lines 164-168); the timeout message is left abstract. -/
def pyExcStr : PyExc → String
  | .httpStatusError c => "HTTP " ++ toString c
  | _ => "timeout"

/-- HTTP status codes that warrant a retry (`_RETRYABLE_STATUS`,
client.py line 49). -/
def RETRYABLE_STATUS : List Nat := [429, 500, 502, 503, 504]

/-- Outcome of one HTTP GET attempt: a response with a status code, or a
timeout (`httpx.TimeoutException`). -/
inductive HttpOutcome : Type where
  | status : Nat → HttpOutcome
  | timeout : HttpOutcome

/-- Observable behavior of one `_request_with_retry` call: how many GET
attempts were issued, the backoff sleeps in order, and the result —
the returned response's status code, or the raised exception. -/
structure RetryTrace where
  attempts : Nat
  sleeps : List Nat
  outcome : Except PyExc Nat

/-- Code run after the retry loop (client.py lines 177-179): an HTTP-layer
`last_exc` is wrapped into `EstatAPIError` with the cause preserved;
anything else is re-raised unwrapped. (`raise None`, for a never-set
`last_exc`, would be a TypeError; it is unreachable for 3 attempts.) -/
def wrap_last : Option PyExc → PyExc
  | some e =>
    if e.isHTTPError then
      .estatAPIError (.vStr ("HTTP error: " ++ pyExcStr e)) (some e)
    else e
  | none => .typeError

/-- Total number of attempts (`max_retries`, client.py line 155). -/
def max_retries : Nat := 3

/-- Embedding of the retry loop body of `_request_with_retry` (client.py
lines 157-175). `outs i` is the outcome of the attempt with zero-based
index `i`; `fuel` is the number of loop iterations left, so the loop
invariant is `fuel = max_retries - attempt`. A non-retryable status
either returns the response (2xx) or lets `raise_for_status()` propagate
(`except` only catches `TimeoutException`). The backoff sleep of
`2 ** attempt` happens only when `attempt < max_retries - 1`, i.e. when
the remaining fuel after this iteration is nonzero. -/
def retry_go (outs : Nat → HttpOutcome) : Nat → Nat → Option PyExc → RetryTrace
  | _, 0, last => { attempts := 0, sleeps := [], outcome := .error (wrap_last last) }
  | attempt, fuel + 1, _ =>
    match outs attempt with
    | .status c =>
      if c ∈ RETRYABLE_STATUS then
        let rest := retry_go outs (attempt + 1) fuel (some (.httpStatusError c))
        { attempts := rest.attempts + 1,
          sleeps := (if fuel = 0 then [] else [2 ^ attempt]) ++ rest.sleeps,
          outcome := rest.outcome }
      else if 200 ≤ c ∧ c < 300 then
        { attempts := 1, sleeps := [], outcome := .ok c }
      else
        { attempts := 1, sleeps := [], outcome := .error (.httpStatusError c) }
    | .timeout =>
      let rest := retry_go outs (attempt + 1) fuel (some .timeoutExc)
      { attempts := rest.attempts + 1,
        sleeps := (if fuel = 0 then [] else [2 ^ attempt]) ++ rest.sleeps,
        outcome := rest.outcome }

/-- Embedding of `_request_with_retry` (client.py lines 151-179). -/
def request_with_retry (outs : Nat → HttpOutcome) : RetryTrace :=
  retry_go outs 0 max_retries none

/-- Whether one attempt outcome is classified as a retryable failure. -/
def retryableOutcome : HttpOutcome → Bool
  | .status c => c ∈ RETRYABLE_STATUS
  | .timeout => true

/-- The value `last_exc` is set to for a retryable failure. -/
def lastExcOf : HttpOutcome → PyExc
  | .status c => .httpStatusError c
  | .timeout => .timeoutExc

/-- Python value test `x is None`. -/
def PyVal.isNone : PyVal → Bool
  | .vNone => true
  | _ => false

/-- Python comparison `x == 0` for decoded JSON values: the int 0, the
float 0.0 and False compare equal to 0; everything else does not. -/
def pyEqInt0 : PyVal → Bool
  | .vInt n => n == 0
  | .vFloat q => q == 0
  | .vBool b => b == false
  | _ => false

/-- Modelled primitive: `str(x)` as used in the fallback message
`f"API error (status={status})"`; non-scalar renderings are left
abstract placeholders. -/
def pyStr : PyVal → String
  | .vInt n => toString n
  | .vStr s => s
  | .vNone => "None"
  | .vBool b => if b then "True" else "False"
  | .vFloat _ => "float"
  | .vList _ => "list"
  | .vDict _ => "dict"

/-- Embedding of the per-key body of the `for key in data` loop of
`_check_api_status` (client.py lines 192-198): `data[key].get("RESULT")`
when `data[key]` is a dict (else None); if the result is truthy and a
dict, read `STATUS`; when it `is not None` and `!= 0`, raise
`EstatAPIError` with the stored `ERROR_MSG` if that key is present, else
the generic fallback message. Returns the raised exception, if any. -/
def check_one (v : PyVal) : Option PyExc :=
  let result : Option PyVal :=
    match v with
    | .vDict d => dget d "RESULT"
    | _ => none
  match result with
  | some r =>
    if r.truthy then
      match r with
      | .vDict rd =>
        match dget rd "STATUS" with
        | some st =>
          if !st.isNone && !pyEqInt0 st then
            some (.estatAPIError
              ((dget rd "ERROR_MSG").getD
                (.vStr ("API error (status=" ++ pyStr st ++ ")"))) none)
          else none
        | none => none
      | _ => none
    else none
  | none => none

/-- Embedding of `_check_api_status` (client.py lines 186-198) on a decoded
top-level JSON dict: scan the top-level keys in insertion order; the first
key whose value raises ends the loop with that exception. -/
def check_api_status : List (String × PyVal) → Option PyExc
  | [] => none
  | (_, v) :: rest =>
    match check_one v with
    | some e => some e
    | none => check_api_status rest

/-- Observable behavior of one `_get_json` call. -/
structure GetJsonTrace where
  attempts : Nat
  sleeps : List Nat
  outcome : Except PyExc (List (String × PyVal))

/-- Embedding of `_get_json` (client.py lines 181-184): run the retrying
transport, then decode and apply the application-level status check once —
after the retry loop, so an application-level error is never retried.
`body` is the decoded JSON dict of the successful response. -/
def get_json (outs : Nat → HttpOutcome) (body : List (String × PyVal)) :
    GetJsonTrace :=
  let t := request_with_retry outs
  match t.outcome with
  | .error e => { attempts := t.attempts, sleeps := t.sleeps, outcome := .error e }
  | .ok _ =>
    match check_api_status body with
    | some e => { attempts := t.attempts, sleeps := t.sleeps, outcome := .error e }
    | none => { attempts := t.attempts, sleeps := t.sleeps, outcome := .ok body }

example : request_with_retry (fun i => if i < 2 then .status 503 else .status 200) =
    { attempts := 3, sleeps := [1, 2], outcome := .ok 200 } := rfl

example : request_with_retry (fun _ => .status 503) =
    { attempts := 3, sleeps := [1, 2],
      outcome := .error (.estatAPIError (.vStr "HTTP error: HTTP 503")
        (some (.httpStatusError 503))) } := rfl

example : request_with_retry (fun _ => .status 404) =
    { attempts := 1, sleeps := [], outcome := .error (.httpStatusError 404) } := rfl

example : check_api_status
    [("GET_STATS_LIST", .vDict [("RESULT",
      .vDict [("STATUS", .vInt 100), ("ERROR_MSG", .vStr "認証に失敗しました。")])])] =
    some (.estatAPIError (.vStr "認証に失敗しました。") none) := rfl

example : check_api_status
    [("GET_STATS_LIST", .vDict [("RESULT", .vDict [("STATUS", .vInt 0)])])] =
    none := rfl

/-- Embedding of the pydantic model `MetaItem` (models.py lines 116-124).
The raw extracted `code`/`name`/`unit` values are kept as they come out of
the response dict (`unit` is None when the attribute is absent). -/
structure MetaItem where
  code : PyVal
  name : PyVal
  level : Int
  unit : PyVal

/-- Model of Python `int(x)` on a decoded JSON value: strings go through
the decimal parser (ValueError when unparseable), ints are returned,
bools are 0/1, floats truncate toward zero, anything else is a TypeError. -/
def py_int_of : PyVal → Except PyExc Int
  | .vStr s =>
    match py_int_parse s with
    | some n => .ok n
    | none => .error (.valueError s)
  | .vInt n => .ok n
  | .vBool b => .ok (if b then 1 else 0)
  | .vFloat q => .ok (q.num.tdiv (q.den : Int))
  | _ => .error .typeError

/-- Embedding of the `MetaItem(...)` construction inside `get_meta`
(client.py lines 276-283): `code=c.get("@code", "")`,
`name=c.get("@name", "")`, `level=int(c.get("@level", "1"))`,
`unit=c.get("@unit")`. The `int()` call can raise. -/
def parse_meta_item (c : List (String × PyVal)) : Except PyExc MetaItem :=
  match py_int_of ((dget c "@level").getD (.vStr "1")) with
  | .error e => .error e
  | .ok lv =>
    .ok { code := (dget c "@code").getD (.vStr ""),
          name := (dget c "@name").getD (.vStr ""),
          level := lv,
          unit := (dget c "@unit").getD .vNone }

/-- Item list of one class object: `[MetaItem(...) for c in classes]`
(client.py lines 276-284). A non-dict class node would be an
AttributeError in Python. -/
def parse_class_items : List PyVal → Except PyExc (List MetaItem)
  | [] => .ok []
  | c :: cs =>
    match c with
    | .vDict d =>
      match parse_meta_item d with
      | .error e => .error e
      | .ok item =>
        match parse_class_items cs with
        | .error e => .error e
        | .ok items => .ok (item :: items)
    | _ => .error .typeError

/-- The four axis buckets built by `get_meta` (client.py lines 268-271);
`classification_items` is a dict in insertion order. -/
structure MetaBuckets where
  table_items : List MetaItem
  classification_items : List (String × List MetaItem)
  time_items : List MetaItem
  area_items : List MetaItem

/-- Model of Python dict assignment `d[k] = v` on an association list with
unique keys: replace in place at the first occurrence of the key, else
append at the end. -/
def dictSet {α : Type} : List (String × α) → String → α → List (String × α)
  | [], k, v => [(k, v)]
  | kv :: rest, k, v =>
    if kv.1 == k then (k, v) :: rest else kv :: dictSet rest k v

/-- Model of `str.startswith(p)` by character-list comparison. -/
def strStartsWith (s p : String) : Bool :=
  p.data.isPrefixOf s.data

/-- Embedding of the id-routing chain of `get_meta` (client.py lines
286-293): `"tab"` rebinds table_items, `"time"` time_items, `"area"`
area_items, an id starting with `"cat"` assigns into the classification
dict under that id, and any other id changes nothing. -/
def route_class_obj (acc : MetaBuckets) (obj_id : String)
    (items : List MetaItem) : MetaBuckets :=
  if obj_id = "tab" then { acc with table_items := items }
  else if obj_id = "time" then { acc with time_items := items }
  else if obj_id = "area" then { acc with area_items := items }
  else if strStartsWith obj_id "cat" then
    { acc with classification_items := dictSet acc.classification_items obj_id items }
  else acc

/-- Embedding of one iteration of the `for obj in class_objs` loop of
`get_meta` (client.py lines 273-293): read `@id` (default `""`), normalize
and parse the `CLASS` list, then route. -/
def parse_class_obj (buckets : MetaBuckets) (obj : PyVal) :
    Except PyExc MetaBuckets :=
  match obj with
  | .vDict d =>
    let obj_id :=
      match (dget d "@id").getD (.vStr "") with
      | .vStr s => s
      | _ => ""
    match parse_class_items (ensure_list ((dget d "CLASS").getD (.vList []))) with
    | .error e => .error e
    | .ok items => .ok (route_class_obj buckets obj_id items)
  | _ => .error .typeError

/-- Embedding of the bucket-building part of `get_meta` (client.py lines
264-301) over the normalized `CLASS_OBJ` list. -/
def get_meta_class_inf (class_objs : List PyVal) : Except PyExc MetaBuckets :=
  class_objs.foldlM parse_class_obj ⟨[], [], [], []⟩

/-- One page as returned by `get_data`: the parsed values, the
server-reported total, and the optional continuation token. -/
structure PageM (α : Type) where
  values : List α
  total_count : Int
  next_key : Option String

/-- Embedding of the `StatsData` result record (models.py lines 177-192)
with the parsed values abstracted to an arbitrary type. -/
structure StatsDataM (α : Type) where
  stats_id : String
  total_count : Int
  values : List α
  next_key : Option String

/-- Python `str(start_position)` for `start_position: int | None`:
`str(None)` is the literal string `"None"`. -/
def py_str_opt_int : Option Int → String
  | none => "None"
  | some n => toString n

/-- Embedding of the `while pages_fetched < max_pages` loop of
`get_all_data` (client.py lines 426-449). `pages i` is the page returned
by the i-th fetch; `fuel` is the number of iterations left, so
`fuel = max_pages - pages_fetched`. The loop appends each page's values,
records its total_count, breaks when the page has no next_key, and
otherwise converts the token with `int()` — which raises ValueError on a
non-numeric token. Returns the loop-exit state
`(pages_fetched, all_values, start_position, total_count)`. -/
def gad_go {α : Type} (pages : Nat → PageM α) :
    Nat → Nat → List α → Option Int → Int →
    Except PyExc (Nat × List α × Option Int × Int)
  | pages_fetched, 0, all_values, start_position, total_count =>
    .ok (pages_fetched, all_values, start_position, total_count)
  | pages_fetched, fuel + 1, all_values, start_position, _ =>
    let page := pages pages_fetched
    let merged := all_values ++ page.values
    let pf := pages_fetched + 1
    match page.next_key with
    | none => .ok (pf, merged, start_position, page.total_count)
    | some key =>
      match py_int_parse key with
      | none => .error (.valueError key)
      | some n => gad_go pages pf fuel merged (some n) page.total_count

/-- Embedding of `get_all_data` (client.py lines 421-459): run the fetch
loop, then build the merged `StatsData` whose next_key is
`str(start_position)` when `pages_fetched >= max_pages`, else None. -/
def get_all_data {α : Type} (stats_id : String) (pages : Nat → PageM α)
    (max_pages : Nat) : Except PyExc (StatsDataM α) :=
  match gad_go pages 0 max_pages [] none 0 with
  | .error e => .error e
  | .ok (pf, vals, sp, tc) =>
    .ok { stats_id := stats_id, total_count := tc, values := vals,
          next_key := if max_pages ≤ pf then some (py_str_opt_int sp) else none }

/-- The payload dict returned by the MCP tool `get_statistic_data`
(server.py lines 239-254). -/
structure ToolDataPayload (α : Type) where
  stats_id : String
  total_count : Int
  values : List α
  has_more : Bool
  next_key : Option String

/-- Embedding of the return statement of `get_statistic_data` (server.py
lines 239-254): values are cut to the first 100 (`data.values[:100]`),
`has_more` mirrors the presence of next_key. -/
def get_statistic_data_payload {α : Type} (data : StatsDataM α) :
    ToolDataPayload α :=
  { stats_id := data.stats_id,
    total_count := data.total_count,
    values := data.values.take 100,
    has_more := data.next_key.isSome,
    next_key := data.next_key }

/-- The payload dict returned by the MCP tool `get_all_statistic_data`
(server.py lines 328-348). -/
structure ToolAllDataPayload (α : Type) where
  stats_id : String
  total_count : Int
  fetched_count : Nat
  values : List α
  has_more : Bool
  note : Option String

/-- The truncation note of `get_all_statistic_data` (server.py line 345). -/
def TRUNCATION_NOTE : String :=
  "First 100 records shown. Use get_statistic_data with start_position for more."

/-- Embedding of the return statement of `get_all_statistic_data`
(server.py lines 328-348): values are cut to the first 100, and `note`
is the truncation message exactly when `len(data.values) > 100`. -/
def get_all_statistic_data_payload {α : Type} (data : StatsDataM α) :
    ToolAllDataPayload α :=
  { stats_id := data.stats_id,
    total_count := data.total_count,
    fetched_count := data.values.length,
    values := data.values.take 100,
    has_more := data.next_key.isSome,
    note := if 100 < data.values.length then some TRUNCATION_NOTE else none }

example : get_all_data "t" (fun i =>
    if i = 0 then { values := [0], total_count := 250, next_key := some "101" }
    else if i = 1 then { values := [1], total_count := 250, next_key := some "201" }
    else { values := [2], total_count := 250, next_key := none }) 10 =
    .ok { stats_id := "t", total_count := 250, values := [0, 1, 2],
          next_key := none } := rfl

example : get_all_data "t" (fun i =>
    if i = 0 then { values := [0], total_count := 250, next_key := some "101" }
    else { values := [1], total_count := 250, next_key := none }) 2 =
    .ok { stats_id := "t", total_count := 250, values := [(0 : Nat), 1],
          next_key := some "101" } := rfl

example : get_all_data "t"
    (fun _ => { values := [(0 : Nat)], total_count := 500, next_key := some "101" }) 5 =
    .ok { stats_id := "t", total_count := 500, values := [0, 0, 0, 0, 0],
          next_key := some "101" } := rfl

example : get_all_data "t"
    (fun _ => { values := [(0 : Nat)], total_count := 1, next_key := none }) 1 =
    .ok { stats_id := "t", total_count := 1, values := [0],
          next_key := some "None" } := rfl

example : get_all_data "t"
    (fun _ => { values := [(0 : Nat)], total_count := 9, next_key := some "abc" }) 5 =
    .error (.valueError "abc") := rfl

/-- Test for the `EstatAPIError` exception class. -/
def PyExc.isEstatAPIError : PyExc → Bool
  | .estatAPIError _ _ => true
  | _ => false

/-- Lookup in an association-list dict: the value stored under the first
occurrence of the key. -/
def alget {α : Type} : List (String × α) → String → Option α
  | [], _ => none
  | kv :: rest, k => if kv.1 == k then some kv.2 else alget rest k

/-- The condition of C3 on one top-level value: it is a dict whose nested
`RESULT` object is a dict carrying a `STATUS` that is present, not the
JSON null (Python's `.get` cannot tell a stored None from an absent key),
and not equal to 0. -/
def resultRaises (v : PyVal) : Prop :=
  ∃ d rd st, v = PyVal.vDict d ∧ dget d "RESULT" = some (.vDict rd) ∧
    dget rd "STATUS" = some st ∧ st.isNone = false ∧ pyEqInt0 st = false

/-- C6: for every input string, the Numeric/Sentinel Parser returns absent
(None) exactly when the string is one of the six missing-data sentinels;
otherwise the integer parse is attempted first, then the float parse, then
the original string is returned unchanged, for any primitive parsers; on
the concrete primitives, "520999398" gives the integer 520999398, "99.5"
gives the float 99.5, and "N/A" gives the string "N/A". The embedding is a
total function: no exception escapes `_parse_numeric`. -/
theorem parse_numeric_spec :
    (∀ (intP : String → Option Int) (floatP : String → Option ℚ) (raw : String),
      parse_numeric intP floatP raw = none ↔ raw ∈ MISSING_VALUES) ∧
    (∀ (intP : String → Option Int) (floatP : String → Option ℚ) (raw : String)
      (n : Int), raw ∉ MISSING_VALUES → intP raw = some n →
      parse_numeric intP floatP raw = some (.pInt n)) ∧
    (∀ (intP : String → Option Int) (floatP : String → Option ℚ) (raw : String)
      (q : ℚ), raw ∉ MISSING_VALUES → intP raw = none → floatP raw = some q →
      parse_numeric intP floatP raw = some (.pFloat q)) ∧
    (∀ (intP : String → Option Int) (floatP : String → Option ℚ) (raw : String),
      raw ∉ MISSING_VALUES → intP raw = none → floatP raw = none →
      parse_numeric intP floatP raw = some (.pStr raw)) ∧
    parse_numeric py_int_parse py_float_parse "520999398" =
      some (.pInt 520999398) ∧
    parse_numeric py_int_parse py_float_parse "99.5" =
      some (.pFloat (199 / 2)) ∧
    parse_numeric py_int_parse py_float_parse "N/A" = some (.pStr "N/A") := by
  refine ⟨?_, ?_, ?_, ?_, rfl, ?_, rfl⟩
  · intro intP floatP raw
    by_cases h : raw ∈ MISSING_VALUES
    · simp [parse_numeric, h]
    · cases hI : intP raw <;> cases hF : floatP raw <;>
        simp [parse_numeric, h, hI, hF]
  · intro intP floatP raw n h hI
    simp [parse_numeric, h, hI]
  · intro intP floatP raw q h hI hF
    simp [parse_numeric, h, hI, hF]
  · intro intP floatP raw h hI hF
    simp [parse_numeric, h, hI, hF]
  · rw [show ((199 : ℚ) / 2) =
      ((99 : ℕ) : ℚ) + ((5 : ℕ) : ℚ) / (10 : ℚ) ^ (1 : ℕ) by norm_num]
    rfl

/-- Witness for C6: the integer, float, and string branches applied at the
concrete inputs "42", "0.5" and "N/A". -/
theorem parse_numeric_spec_witness :
    ("42" ∉ MISSING_VALUES ∧ py_int_parse "42" = some 42 ∧
      parse_numeric py_int_parse py_float_parse "42" = some (.pInt 42)) ∧
    (py_int_parse "0.5" = none ∧
      parse_numeric py_int_parse py_float_parse "0.5" =
        some (.pFloat (((0 : ℕ) : ℚ) + ((5 : ℕ) : ℚ) / (10 : ℚ) ^ (1 : ℕ)))) ∧
    (py_float_parse "N/A" = none ∧
      parse_numeric py_int_parse py_float_parse "N/A" = some (.pStr "N/A")) :=
  ⟨⟨by decide, rfl,
    parse_numeric_spec.2.1 py_int_parse py_float_parse "42" 42 (by decide) rfl⟩,
   ⟨rfl,
    parse_numeric_spec.2.2.1 py_int_parse py_float_parse "0.5" _
      (by decide) rfl rfl⟩,
   ⟨rfl,
    parse_numeric_spec.2.2.2.1 py_int_parse py_float_parse "N/A"
      (by decide) rfl rfl⟩⟩

/-- C7: the shape normalizer returns a list unchanged (including the empty
list), wraps a non-empty dict in a one-element list, returns the empty
list on empty or absent input, and is idempotent. -/
theorem ensure_list_spec :
    (∀ xs : List PyVal, ensure_list (.vList xs) = xs) ∧
    (∀ (kv : String × PyVal) (kvs : List (String × PyVal)),
      ensure_list (.vDict (kv :: kvs)) = [.vDict (kv :: kvs)]) ∧
    ensure_list .vNone = [] ∧
    ensure_list (.vDict []) = [] ∧
    ensure_list (.vList []) = [] ∧
    ensure_list (.vDict [("a", .vInt 1)]) = [.vDict [("a", .vInt 1)]] ∧
    ensure_list (.vList [.vInt 1, .vInt 2]) = [.vInt 1, .vInt 2] ∧
    (∀ x : PyVal, ensure_list (.vList (ensure_list x)) = ensure_list x) :=
  ⟨fun _ => rfl, fun _ _ => rfl, rfl, rfl, rfl, rfl, rfl, fun _ => rfl⟩

/-- Counterexample for C5: a class item whose `@level` attribute is present
but not parseable as an integer makes the metadata parser raise ValueError
instead of defaulting the level to 1. -/
theorem parse_meta_item_level_cex :
    parse_meta_item
      [("@code", .vStr "001"), ("@name", .vStr "n"), ("@level", .vStr "abc")] =
    .error (.valueError "abc") := rfl

/-- C5 (amended): the level defaults to 1 only when the `@level` attribute
is absent; a present but unparseable `@level` string raises ValueError. -/
theorem parse_meta_item_level_spec :
    (∀ c : List (String × PyVal), dget c "@level" = none →
      ∃ item, parse_meta_item c = .ok item ∧ item.level = 1) ∧
    (∀ (c : List (String × PyVal)) (s : String),
      dget c "@level" = some (.vStr s) → py_int_parse s = none →
      parse_meta_item c = .error (.valueError s)) := by
  constructor
  · intro c h
    unfold parse_meta_item
    rw [h]
    exact ⟨_, rfl, rfl⟩
  · intro c s h hp
    unfold parse_meta_item
    rw [h]
    simp [py_int_of, hp]

/-- Witness for C5: both branches applied at concrete class items. -/
theorem parse_meta_item_level_spec_witness :
    (∃ item, parse_meta_item [("@code", .vStr "c")] = .ok item ∧
      item.level = 1) ∧
    parse_meta_item [("@level", .vStr "zz")] = .error (.valueError "zz") :=
  ⟨parse_meta_item_level_spec.1 _ rfl,
    parse_meta_item_level_spec.2 _ "zz" rfl rfl⟩

/-- Counterexample for C9: the payload `get_statistic_data` returns for a
truncated result (101 fetched values, no next_key) is identical to the
payload for the corresponding untruncated result (the same first 100
values), so no field of the payload indicates that truncation happened. -/
theorem tool_truncation_cex :
    get_statistic_data_payload
      { stats_id := "t", total_count := 101, values := List.range 101,
        next_key := none } =
    get_statistic_data_payload
      { stats_id := "t", total_count := 101, values := List.range 100,
        next_key := none } ∧
    100 < (List.range 101).length := by
  constructor
  · simp [get_statistic_data_payload, List.take_range]
  · simp

/-- C9 (amended): both tool payloads return exactly the first
min(n, 100) fetched values; `get_all_statistic_data` carries the
truncation note exactly when n exceeds 100 (and reports the true
fetched count); `get_statistic_data` carries no truncation indicator. -/
theorem tool_truncation_spec :
    (∀ (α : Type) (d : StatsDataM α),
      (get_statistic_data_payload d).values = d.values.take 100) ∧
    (∀ (α : Type) (d : StatsDataM α),
      (get_all_statistic_data_payload d).values = d.values.take 100) ∧
    (∀ (α : Type) (d : StatsDataM α),
      (get_all_statistic_data_payload d).note = some TRUNCATION_NOTE ↔
        100 < d.values.length) ∧
    (∀ (α : Type) (d : StatsDataM α),
      (get_all_statistic_data_payload d).fetched_count = d.values.length) := by
  refine ⟨fun α d => rfl, fun α d => rfl, fun α d => ?_, fun α d => rfl⟩
  simp only [get_all_statistic_data_payload]
  by_cases h : 100 < d.values.length <;> simp [h]

/-- Dict assignment stores the assigned value under the assigned key. -/
lemma alget_dictSet_self {α : Type} (d : List (String × α)) (k : String)
    (v : α) : alget (dictSet d k v) k = some v := by
  induction d with
  | nil => simp [dictSet, alget]
  | cons kv rest ih =>
    by_cases h1 : kv.1 = k
    · simp [dictSet, alget, h1]
    · simp [dictSet, alget, h1, ih]

/-- Dict assignment leaves every other key's stored value unchanged. -/
lemma alget_dictSet_ne {α : Type} (d : List (String × α)) (k k2 : String)
    (v : α) (hne : k ≠ k2) :
    alget (dictSet d k v) k2 = alget d k2 := by
  induction d with
  | nil => simp [dictSet, alget, hne]
  | cons kv rest ih =>
    by_cases h1 : kv.1 = k
    · simp [dictSet, alget, h1, hne]
    · by_cases h3 : kv.1 = k2 <;>
        simp [dictSet, alget, h1, h3, ih, Ne.symm hne]

/-- C8: each class object is routed by its declared id to exactly one
bucket, leaving every other bucket unchanged: "tab" rebinds table_items
only, "time" time_items only, "area" area_items only, a "cat"-prefixed
id assigns the items into the classification dict under exactly that key
(other classification keys keep their items), and any other id changes
nothing. A concrete five-object response is parsed end to end. -/
theorem route_class_obj_spec :
    (∀ (acc : MetaBuckets) (items : List MetaItem),
      route_class_obj acc "tab" items = { acc with table_items := items }) ∧
    (∀ (acc : MetaBuckets) (items : List MetaItem),
      route_class_obj acc "time" items = { acc with time_items := items }) ∧
    (∀ (acc : MetaBuckets) (items : List MetaItem),
      route_class_obj acc "area" items = { acc with area_items := items }) ∧
    (∀ (acc : MetaBuckets) (items : List MetaItem) (id : String),
      id ≠ "tab" → id ≠ "time" → id ≠ "area" →
      strStartsWith id "cat" = true →
      route_class_obj acc id items =
        { acc with classification_items :=
            dictSet acc.classification_items id items }) ∧
    (∀ (d : List (String × List MetaItem)) (k : String) (v : List MetaItem),
      alget (dictSet d k v) k = some v) ∧
    (∀ (d : List (String × List MetaItem)) (k k2 : String)
      (v : List MetaItem), k ≠ k2 →
      alget (dictSet d k v) k2 = alget d k2) ∧
    (∀ (acc : MetaBuckets) (items : List MetaItem) (id : String),
      id ≠ "tab" → id ≠ "time" → id ≠ "area" →
      strStartsWith id "cat" = false →
      route_class_obj acc id items = acc) ∧
    get_meta_class_inf
      [.vDict [("@id", .vStr "tab"), ("CLASS", .vDict
          [("@code", .vStr "00001"), ("@name", .vStr "人口"),
           ("@level", .vStr "1"), ("@unit", .vStr "人")])],
       .vDict [("@id", .vStr "time"), ("CLASS", .vList [.vDict
          [("@code", .vStr "2024000"), ("@name", .vStr "2024年"),
           ("@level", .vStr "1")]])],
       .vDict [("@id", .vStr "area"), ("CLASS", .vDict
          [("@code", .vStr "00000"), ("@name", .vStr "全国"),
           ("@level", .vStr "1")])],
       .vDict [("@id", .vStr "cat01"), ("CLASS", .vDict
          [("@code", .vStr "100"), ("@name", .vStr "総数"),
           ("@level", .vStr "1")])],
       .vDict [("@id", .vStr "weird"), ("CLASS", .vDict
          [("@code", .vStr "9")])]] =
      .ok { table_items := [⟨.vStr "00001", .vStr "人口", 1, .vStr "人"⟩],
            classification_items :=
              [("cat01", [⟨.vStr "100", .vStr "総数", 1, .vNone⟩])],
            time_items := [⟨.vStr "2024000", .vStr "2024年", 1, .vNone⟩],
            area_items := [⟨.vStr "00000", .vStr "全国", 1, .vNone⟩] } := by
  refine ⟨fun acc items => rfl, fun acc items => rfl, fun acc items => rfl,
    ?_, fun d k v => alget_dictSet_self d k v,
    fun d k k2 v hne => alget_dictSet_ne d k k2 v hne, ?_, rfl⟩
  · intro acc items id h1 h2 h3 h4
    simp [route_class_obj, h1, h2, h3, h4]
  · intro acc items id h1 h2 h3 h4
    simp [route_class_obj, h1, h2, h3, h4]

/-- Witness for C8: the cat-routing, other-key, and unrecognized-id parts
applied at concrete ids. -/
theorem route_class_obj_spec_witness :
    (strStartsWith "cat01" "cat" = true ∧
      route_class_obj ⟨[], [], [], []⟩ "cat01" [] =
        { table_items := [],
          classification_items := dictSet [] "cat01" [],
          time_items := [], area_items := [] }) ∧
    alget (dictSet [("a", ([] : List MetaItem))] "cat01" []) "a" =
      alget [("a", ([] : List MetaItem))] "a" ∧
    (strStartsWith "zzz" "cat" = false ∧
      route_class_obj ⟨[], [], [], []⟩ "zzz" [] = ⟨[], [], [], []⟩) :=
  ⟨⟨rfl, route_class_obj_spec.2.2.2.1 _ _ "cat01"
      (by decide) (by decide) (by decide) rfl⟩,
   route_class_obj_spec.2.2.2.2.2.1 [("a", [])] "cat01" "a" [] (by decide),
   ⟨rfl, route_class_obj_spec.2.2.2.2.2.2.1 _ _ "zzz"
      (by decide) (by decide) (by decide) rfl⟩⟩

/-- Lookup in the empty dict finds nothing. -/
lemma dget_nil (k : String) : dget [] k = none := rfl

/-- One top-level value raises in the status check exactly when it
satisfies `resultRaises`. -/
lemma check_one_some_iff (v : PyVal) :
    (∃ e, check_one v = some e) ↔ resultRaises v := by
  cases v
  case vDict d =>
    simp only [check_one]
    rcases hR : dget d "RESULT" with _ | r
    · simp [resultRaises, hR]
    · cases r
      case vDict rd =>
        cases rd
        case nil => simp [resultRaises, hR, PyVal.truthy, dget_nil]
        case cons kv tl =>
          rcases hS : dget (kv :: tl) "STATUS" with _ | st
          · simp [resultRaises, hR, hS, PyVal.truthy]
          · cases hN : st.isNone <;> cases hZ : pyEqInt0 st <;>
              simp [resultRaises, hR, hS, hN, hZ, PyVal.truthy]
      all_goals simp [resultRaises, hR, ite_self]
  all_goals simp [check_one, resultRaises]

/-- Any exception produced by the per-key check is an `EstatAPIError`
raised without a cause. -/
lemma check_one_shape (v : PyVal) (e : PyExc) (h : check_one v = some e) :
    ∃ msg, e = .estatAPIError msg none := by
  cases v <;> simp only [check_one] at h <;>
    try exact Option.noConfusion h
  repeat' split at h
  all_goals first
    | exact Option.noConfusion h
    | exact ⟨_, (Option.some.inj h).symm⟩

/-- The status check raises exactly when some top-level key raises. -/
lemma check_api_status_some_iff (body : List (String × PyVal)) :
    (∃ e, check_api_status body = some e) ↔
      ∃ kv ∈ body, resultRaises kv.2 := by
  induction body with
  | nil => simp [check_api_status]
  | cons hd rest ih =>
    obtain ⟨k, v⟩ := hd
    rcases hc : check_one v with _ | e
    · have hv : ¬ resultRaises v := by
        rw [← check_one_some_iff]
        simp [hc]
      simp [check_api_status, hc, ih, hv]
    · have hv : resultRaises v := (check_one_some_iff v).mp ⟨e, hc⟩
      simp [check_api_status, hc, hv]

/-- Whatever the status check raises is an `EstatAPIError`. -/
lemma check_api_status_shape (body : List (String × PyVal)) (e : PyExc)
    (h : check_api_status body = some e) :
    ∃ msg, e = .estatAPIError msg none := by
  induction body with
  | nil => simp [check_api_status] at h
  | cons hd rest ih =>
    obtain ⟨k, v⟩ := hd
    rcases hc : check_one v with _ | e2
    · simp only [check_api_status, hc] at h
      exact ih h
    · simp only [check_api_status, hc, Option.some.injEq] at h
      subst h
      exact check_one_shape v e2 hc

/-- C3: the application-level status check raises if and only if some
top-level key's nested RESULT dict has a STATUS that is present (and not
null — Python's `.get` conflates a stored None with absence) and not
equal to 0; what it raises is always an `EstatAPIError`, carrying the
stored ERROR_MSG verbatim when that key is present and the generic
fallback message otherwise; STATUS 0 never raises; and the check runs
after the retry loop, so the failure is raised on the single successful
attempt and never retried. -/
theorem check_api_status_spec :
    (∀ body : List (String × PyVal),
      (∃ e, check_api_status body = some e) ↔
        ∃ kv ∈ body, resultRaises kv.2) ∧
    (∀ (body : List (String × PyVal)) (e : PyExc),
      check_api_status body = some e → e.isEstatAPIError = true) ∧
    (∀ (k : String) (d rd : List (String × PyVal)) (st msg : PyVal)
      (rest : List (String × PyVal)),
      dget d "RESULT" = some (.vDict rd) → dget rd "STATUS" = some st →
      st.isNone = false → pyEqInt0 st = false →
      dget rd "ERROR_MSG" = some msg →
      check_api_status ((k, .vDict d) :: rest) =
        some (.estatAPIError msg none)) ∧
    (∀ (k : String) (d rd : List (String × PyVal)) (st : PyVal)
      (rest : List (String × PyVal)),
      dget d "RESULT" = some (.vDict rd) → dget rd "STATUS" = some st →
      st.isNone = false → pyEqInt0 st = false →
      dget rd "ERROR_MSG" = none →
      check_api_status ((k, .vDict d) :: rest) =
        some (.estatAPIError
          (.vStr ("API error (status=" ++ pyStr st ++ ")")) none)) ∧
    (∀ (body : List (String × PyVal)) (e : PyExc),
      check_api_status body = some e →
      get_json (fun _ => .status 200) body =
        { attempts := 1, sleeps := [], outcome := .error e }) ∧
    check_api_status [("GET_STATS_DATA", .vDict [("RESULT", .vDict
      [("STATUS", .vInt 100),
       ("ERROR_MSG", .vStr "認証に失敗しました。")])])] =
      some (.estatAPIError (.vStr "認証に失敗しました。") none) ∧
    check_api_status [("GET_STATS_DATA", .vDict [("RESULT", .vDict
      [("STATUS", .vInt 0)])])] = none := by
  refine ⟨check_api_status_some_iff, ?_, ?_, ?_, ?_, rfl, rfl⟩
  · intro body e h
    obtain ⟨msg, rfl⟩ := check_api_status_shape body e h
    rfl
  · intro k d rd st msg rest hR hS hN hZ hM
    obtain ⟨kv, tl, rfl⟩ : ∃ kv tl, rd = kv :: tl := by
      cases rd with
      | nil => simp [dget] at hS
      | cons kv tl => exact ⟨kv, tl, rfl⟩
    simp [check_api_status, check_one, hR, hS, hM, hN, hZ, PyVal.truthy]
  · intro k d rd st rest hR hS hN hZ hM
    obtain ⟨kv, tl, rfl⟩ : ∃ kv tl, rd = kv :: tl := by
      cases rd with
      | nil => simp [dget] at hS
      | cons kv tl => exact ⟨kv, tl, rfl⟩
    simp [check_api_status, check_one, hR, hS, hM, hN, hZ, PyVal.truthy]
  · intro body e h
    have ht : request_with_retry (fun _ => .status 200) =
        { attempts := 1, sleeps := [], outcome := .ok 200 } := rfl
    simp [get_json, ht, h]

/-- Witness for C3: the verbatim-message, fallback-message, always-an-API-
error, and raised-on-one-attempt parts applied at a concrete body. -/
theorem check_api_status_spec_witness :
    check_api_status [("K", .vDict [("RESULT", .vDict
        [("STATUS", .vInt 100), ("ERROR_MSG", .vStr "m")])])] =
      some (.estatAPIError (.vStr "m") none) ∧
    check_api_status [("K", .vDict [("RESULT", .vDict
        [("STATUS", .vInt 7)])])] =
      some (.estatAPIError (.vStr "API error (status=7)") none) ∧
    (PyExc.estatAPIError (.vStr "m") none).isEstatAPIError = true ∧
    get_json (fun _ => .status 200)
        [("K", .vDict [("RESULT", .vDict
          [("STATUS", .vInt 100), ("ERROR_MSG", .vStr "m")])])] =
      { attempts := 1, sleeps := [],
        outcome := .error (.estatAPIError (.vStr "m") none) } :=
  ⟨check_api_status_spec.2.2.1 "K" _ _ (.vInt 100) (.vStr "m") []
      rfl rfl rfl rfl rfl,
   check_api_status_spec.2.2.2.1 "K" _ _ (.vInt 7) [] rfl rfl rfl rfl rfl,
   check_api_status_spec.2.1 [("K", .vDict [("RESULT", .vDict
      [("STATUS", .vInt 100), ("ERROR_MSG", .vStr "m")])])] _ rfl,
   check_api_status_spec.2.2.2.2.1 _ _ rfl⟩

/-- The exception recorded for a retryable failure is an httpx HTTP error. -/
lemma isHTTPError_lastExcOf (o : HttpOutcome) :
    (lastExcOf o).isHTTPError = true := by
  cases o <;> rfl

/-- The retry loop issues at most `fuel` attempts. -/
lemma retry_go_attempts_le (outs : Nat → HttpOutcome) :
    ∀ (fuel attempt : Nat) (last : Option PyExc),
      (retry_go outs attempt fuel last).attempts ≤ fuel := by
  intro fuel
  induction fuel with
  | zero => intro a l; simp [retry_go]
  | succ f ih =>
    intro a l
    cases ho : outs a with
    | status c =>
      by_cases hc : c ∈ RETRYABLE_STATUS
      · have := ih (a + 1) (some (.httpStatusError c))
        simp [retry_go, ho, hc]
        omega
      · by_cases h2 : 200 ≤ c ∧ c < 300 <;> simp [retry_go, ho, hc, h2]
    | timeout =>
      have := ih (a + 1) (some .timeoutExc)
      simp [retry_go, ho]
      omega

/-- When the attempts with index below `i` are retryable failures and
attempt `i` returns a 2xx response, the call returns that response after
`i + 1` attempts with backoff sleeps 1, 2, ... between attempts. -/
lemma request_with_retry_first_ok (outs : Nat → HttpOutcome) (i c : Nat)
    (hi : i < 3) (hj : ∀ j, j < i → retryableOutcome (outs j) = true)
    (ho : outs i = .status c) (h2 : 200 ≤ c) (h3 : c < 300) :
    request_with_retry outs =
      { attempts := i + 1, sleeps := (List.range i).map (fun j => 2 ^ j),
        outcome := .ok c } := by
  have hc : c ∉ RETRYABLE_STATUS := by
    simp only [RETRYABLE_STATUS, List.mem_cons, List.not_mem_nil, or_false]
    omega
  interval_cases i
  · show retry_go outs 0 3 none = _
    simp [retry_go, ho, hc, h2, h3, List.range_succ]
  · have r0 := hj 0 (by omega)
    show retry_go outs 0 3 none = _
    rcases o0 : outs 0 with c0 | _
    · have m0 : c0 ∈ RETRYABLE_STATUS := by
        rw [o0] at r0
        simpa [retryableOutcome] using r0
      simp [retry_go, o0, m0, ho, hc, h2, h3, List.range_succ]
    · simp [retry_go, o0, ho, hc, h2, h3, List.range_succ]
  · have r0 := hj 0 (by omega)
    have r1 := hj 1 (by omega)
    show retry_go outs 0 3 none = _
    rcases o0 : outs 0 with c0 | _ <;> rcases o1 : outs 1 with c1 | _
    · have m0 : c0 ∈ RETRYABLE_STATUS := by
        rw [o0] at r0
        simpa [retryableOutcome] using r0
      have m1 : c1 ∈ RETRYABLE_STATUS := by
        rw [o1] at r1
        simpa [retryableOutcome] using r1
      simp [retry_go, o0, o1, m0, m1, ho, hc, h2, h3, List.range_succ]
    · have m0 : c0 ∈ RETRYABLE_STATUS := by
        rw [o0] at r0
        simpa [retryableOutcome] using r0
      simp [retry_go, o0, o1, m0, ho, hc, h2, h3, List.range_succ]
    · have m1 : c1 ∈ RETRYABLE_STATUS := by
        rw [o1] at r1
        simpa [retryableOutcome] using r1
      simp [retry_go, o0, o1, m1, ho, hc, h2, h3, List.range_succ]
    · simp [retry_go, o0, o1, ho, hc, h2, h3, List.range_succ]

/-- When the attempts with index below `i` are retryable failures and
attempt `i` is a non-retryable non-2xx status, `raise_for_status`
propagates after `i + 1` attempts, with no further sleep. -/
lemma request_with_retry_first_err (outs : Nat → HttpOutcome) (i c : Nat)
    (hi : i < 3) (hj : ∀ j, j < i → retryableOutcome (outs j) = true)
    (ho : outs i = .status c) (hc : c ∉ RETRYABLE_STATUS)
    (hn : ¬(200 ≤ c ∧ c < 300)) :
    request_with_retry outs =
      { attempts := i + 1, sleeps := (List.range i).map (fun j => 2 ^ j),
        outcome := .error (.httpStatusError c) } := by
  interval_cases i
  · show retry_go outs 0 3 none = _
    simp [retry_go, ho, hc, hn, List.range_succ]
  · have r0 := hj 0 (by omega)
    show retry_go outs 0 3 none = _
    rcases o0 : outs 0 with c0 | _
    · have m0 : c0 ∈ RETRYABLE_STATUS := by
        rw [o0] at r0
        simpa [retryableOutcome] using r0
      simp [retry_go, o0, m0, ho, hc, hn, List.range_succ]
    · simp [retry_go, o0, ho, hc, hn, List.range_succ]
  · have r0 := hj 0 (by omega)
    have r1 := hj 1 (by omega)
    show retry_go outs 0 3 none = _
    rcases o0 : outs 0 with c0 | _ <;> rcases o1 : outs 1 with c1 | _
    · have m0 : c0 ∈ RETRYABLE_STATUS := by
        rw [o0] at r0
        simpa [retryableOutcome] using r0
      have m1 : c1 ∈ RETRYABLE_STATUS := by
        rw [o1] at r1
        simpa [retryableOutcome] using r1
      simp [retry_go, o0, o1, m0, m1, ho, hc, hn, List.range_succ]
    · have m0 : c0 ∈ RETRYABLE_STATUS := by
        rw [o0] at r0
        simpa [retryableOutcome] using r0
      simp [retry_go, o0, o1, m0, ho, hc, hn, List.range_succ]
    · have m1 : c1 ∈ RETRYABLE_STATUS := by
        rw [o1] at r1
        simpa [retryableOutcome] using r1
      simp [retry_go, o0, o1, m1, ho, hc, hn, List.range_succ]
    · simp [retry_go, o0, o1, ho, hc, hn, List.range_succ]

/-- When all three attempts are retryable failures, retries are exhausted
after exactly 3 attempts and 2 sleeps, and the last transport error is
wrapped into `EstatAPIError` with the cause preserved. -/
lemma request_with_retry_exhaust (outs : Nat → HttpOutcome)
    (h : ∀ j, j < 3 → retryableOutcome (outs j) = true) :
    request_with_retry outs =
      { attempts := 3, sleeps := [1, 2],
        outcome := .error (.estatAPIError
          (.vStr ("HTTP error: " ++ pyExcStr (lastExcOf (outs 2))))
          (some (lastExcOf (outs 2)))) } := by
  have r0 := h 0 (by omega)
  have r1 := h 1 (by omega)
  have r2 := h 2 (by omega)
  show retry_go outs 0 3 none = _
  rcases o0 : outs 0 with c0 | _ <;> rcases o1 : outs 1 with c1 | _ <;>
    rcases o2 : outs 2 with c2 | _
  all_goals try (have m0 : c0 ∈ RETRYABLE_STATUS := by rw [o0] at r0; simpa [retryableOutcome] using r0)
  all_goals try (have m1 : c1 ∈ RETRYABLE_STATUS := by rw [o1] at r1; simpa [retryableOutcome] using r1)
  all_goals try (have m2 : c2 ∈ RETRYABLE_STATUS := by rw [o2] at r2; simpa [retryableOutcome] using r2)
  all_goals
    simp [retry_go, o0, o1, o2, wrap_last, lastExcOf, PyExc.isHTTPError,
      pyExcStr, *]

/-- C2: the retrying transport makes at most 3 attempts; when the first
non-retryable outcome (a status outside the retryable set, 2xx included)
occurs at zero-based attempt `i`, the loop ends there after `i + 1`
attempts and sleeps of 2^0, ..., 2^(i-1) between attempts — returning the
response for a 2xx status and failing immediately for any other non-2xx
status; when all 3 attempts are retryable failures (retryable status or
timeout), exactly 3 attempts and exactly 2 sleeps of 1 then 2 time units
happen before the transport error surfaces. -/
theorem request_with_retry_spec :
    (∀ outs : Nat → HttpOutcome, (request_with_retry outs).attempts ≤ 3) ∧
    (∀ (outs : Nat → HttpOutcome) (i c : Nat), i < 3 →
      (∀ j, j < i → retryableOutcome (outs j) = true) →
      outs i = .status c → 200 ≤ c → c < 300 →
      request_with_retry outs =
        { attempts := i + 1, sleeps := (List.range i).map (fun j => 2 ^ j),
          outcome := .ok c }) ∧
    (∀ (outs : Nat → HttpOutcome) (i c : Nat), i < 3 →
      (∀ j, j < i → retryableOutcome (outs j) = true) →
      outs i = .status c → c ∉ RETRYABLE_STATUS → ¬(200 ≤ c ∧ c < 300) →
      request_with_retry outs =
        { attempts := i + 1, sleeps := (List.range i).map (fun j => 2 ^ j),
          outcome := .error (.httpStatusError c) }) ∧
    (∀ outs : Nat → HttpOutcome,
      (∀ j, j < 3 → retryableOutcome (outs j) = true) →
      request_with_retry outs =
        { attempts := 3, sleeps := [1, 2],
          outcome := .error (.estatAPIError
            (.vStr ("HTTP error: " ++ pyExcStr (lastExcOf (outs 2))))
            (some (lastExcOf (outs 2)))) }) :=
  ⟨fun outs => retry_go_attempts_le outs 3 0 none,
   request_with_retry_first_ok,
   request_with_retry_first_err,
   request_with_retry_exhaust⟩

/-- Witness for C2: two 503 responses then a 200 succeed with exactly 3
attempts and sleeps 1 then 2; a 404 on the first attempt stops at once. -/
theorem request_with_retry_spec_witness :
    (∀ j, j < 2 → retryableOutcome
      ((fun i => if i < 2 then HttpOutcome.status 503 else .status 200) j) =
        true) ∧
    request_with_retry
        (fun i => if i < 2 then HttpOutcome.status 503 else .status 200) =
      { attempts := 3, sleeps := [1, 2], outcome := .ok 200 } ∧
    request_with_retry (fun _ => HttpOutcome.status 404) =
      { attempts := 1, sleeps := [], outcome :=
          .error (.httpStatusError 404) } :=
  ⟨by decide,
   by
    have h := request_with_retry_spec.2.1
      (fun i => if i < 2 then HttpOutcome.status 503 else .status 200)
      2 200 (by omega) (by decide) rfl (by omega) (by omega)
    simpa using h,
   by
    have h := request_with_retry_spec.2.2.1 (fun _ => HttpOutcome.status 404)
      0 404 (by omega) (fun j hj => absurd hj (Nat.not_lt_zero j)) rfl
      (by decide) (by omega)
    simpa using h⟩

/-- Counterexample for C4: a non-retryable 404 propagates out of the
retrying transport as the raw HTTP status error — an HTTP-layer failure
that reaches the caller unwrapped, not as an `EstatAPIError`. -/
theorem http_error_wrapping_cex :
    request_with_retry (fun _ => HttpOutcome.status 404) =
      { attempts := 1, sleeps := [],
        outcome := .error (.httpStatusError 404) } ∧
    (PyExc.httpStatusError 404).isHTTPError = true ∧
    (PyExc.httpStatusError 404).isEstatAPIError = false := ⟨rfl, rfl, rfl⟩

/-- C4 (amended): a retryable failure whose retries were exhausted is
wrapped into the single API-error kind with the underlying cause
preserved, and a non-HTTP exception would be re-raised unwrapped by the
post-loop code; but a non-retryable non-2xx status propagates immediately
as the unwrapped HTTP status error, not as an `EstatAPIError`. -/
theorem http_error_wrapping_spec :
    (∀ outs : Nat → HttpOutcome,
      (∀ j, j < 3 → retryableOutcome (outs j) = true) →
      (request_with_retry outs).outcome =
        .error (.estatAPIError
          (.vStr ("HTTP error: " ++ pyExcStr (lastExcOf (outs 2))))
          (some (lastExcOf (outs 2))))) ∧
    (∀ (outs : Nat → HttpOutcome) (i c : Nat), i < 3 →
      (∀ j, j < i → retryableOutcome (outs j) = true) →
      outs i = .status c → c ∉ RETRYABLE_STATUS → ¬(200 ≤ c ∧ c < 300) →
      (request_with_retry outs).outcome = .error (.httpStatusError c)) ∧
    (∀ e : PyExc, e.isHTTPError = false → wrap_last (some e) = e) := by
  refine ⟨?_, ?_, ?_⟩
  · intro outs h
    rw [request_with_retry_exhaust outs h]
  · intro outs i c hi hj ho hc hn
    rw [request_with_retry_first_err outs i c hi hj ho hc hn]
  · intro e he
    simp [wrap_last, he]

/-- Witness for C4: exhausted 503s surface wrapped with the cause kept;
a 404 surfaces unwrapped; a ValueError would be re-raised as itself. -/
theorem http_error_wrapping_spec_witness :
    (request_with_retry (fun _ => HttpOutcome.status 503)).outcome =
      .error (.estatAPIError (.vStr "HTTP error: HTTP 503")
        (some (.httpStatusError 503))) ∧
    (request_with_retry (fun _ => HttpOutcome.status 404)).outcome =
      .error (.httpStatusError 404) ∧
    wrap_last (some (.valueError "v")) = .valueError "v" :=
  ⟨by
    have h := http_error_wrapping_spec.1 (fun _ => HttpOutcome.status 503)
      (by decide)
    simpa using h,
   by
    have h := http_error_wrapping_spec.2.1 (fun _ => HttpOutcome.status 404)
      0 404 (by omega) (fun j hj => absurd hj (Nat.not_lt_zero j)) rfl
      (by decide) (by omega)
    simpa using h,
   http_error_wrapping_spec.2.2 (.valueError "v") rfl⟩

/-- C1 evaluated at its failing boundary: the spec's own pagination
scenarios hold away from the boundary (3 pages under maxPages 10 end with
next_key absent; an endless generator under maxPages 5 keeps a pending
token), but when the natural end is reached exactly on the maxPages-th
page the merged result still carries a next_key — the stale, already
consumed token "101", and even the literal string "None" when no token
was ever seen — where the claim requires it to be absent. -/
theorem get_all_data_next_key_eval :
    get_all_data "t" (fun i =>
      if i = 0 then { values := [0], total_count := 250, next_key := some "101" }
      else if i = 1 then
        { values := [1], total_count := 250, next_key := some "201" }
      else { values := [2], total_count := 250, next_key := none }) 10 =
      .ok { stats_id := "t", total_count := 250, values := [(0 : Nat), 1, 2],
            next_key := none } ∧
    get_all_data "t" (fun _ =>
      { values := [(0 : Nat)], total_count := 500, next_key := some "101" }) 5 =
      .ok { stats_id := "t", total_count := 500, values := [0, 0, 0, 0, 0],
            next_key := some "101" } ∧
    get_all_data "t" (fun i =>
      if i = 0 then { values := [0], total_count := 250, next_key := some "101" }
      else { values := [1], total_count := 250, next_key := none }) 2 =
      .ok { stats_id := "t", total_count := 250, values := [(0 : Nat), 1],
            next_key := some "101" } ∧
    get_all_data "t" (fun _ =>
      { values := [(0 : Nat)], total_count := 1, next_key := none }) 1 =
      .ok { stats_id := "t", total_count := 1, values := [0],
            next_key := some "None" } := ⟨rfl, rfl, rfl, rfl⟩

/-- If every token before fetch `i` parses and the token of fetch `i`
does not, the pagination loop raises ValueError there. -/
lemma gad_go_valueerror {α : Type} (pages : Nat → PageM α) (t : String) :
    ∀ (i pf fuel : Nat) (vals : List α) (sp : Option Int) (tc : Int),
      i < fuel →
      (∀ j, j < i → ∃ t2 n, (pages (pf + j)).next_key = some t2 ∧
        py_int_parse t2 = some n) →
      (pages (pf + i)).next_key = some t → py_int_parse t = none →
      gad_go pages pf fuel vals sp tc = .error (.valueError t) := by
  intro i
  induction i with
  | zero =>
    intro pf fuel vals sp tc hfuel hj ht hp
    obtain ⟨f, rfl⟩ : ∃ f, fuel = f + 1 := ⟨fuel - 1, by omega⟩
    simp only [Nat.add_zero] at ht
    simp [gad_go, ht, hp]
  | succ i ih =>
    intro pf fuel vals sp tc hfuel hj ht hp
    obtain ⟨f, rfl⟩ : ∃ f, fuel = f + 1 := ⟨fuel - 1, by omega⟩
    obtain ⟨t0, n0, h00, h01⟩ := hj 0 (by omega)
    simp only [Nat.add_zero] at h00
    simp only [gad_go, h00, h01]
    refine ih (pf + 1) f _ _ _ (by omega) ?_ ?_ hp
    · intro j hjlt
      have h := hj (j + 1) (by omega)
      have e : pf + (j + 1) = pf + 1 + j := by omega
      rwa [e] at h
    · have e : pf + (i + 1) = pf + 1 + i := by omega
      rwa [e] at ht

/-- If every fetched page in the window carries a parseable token, the
loop exits by the count with start_position holding the parse of the
last page's token. -/
lemma gad_go_all_tokens {α : Type} (pages : Nat → PageM α) :
    ∀ (fuel pf : Nat) (vals : List α) (sp : Option Int) (tc : Int),
      0 < fuel →
      (∀ j, j < fuel → ∃ t n, (pages (pf + j)).next_key = some t ∧
        py_int_parse t = some n) →
      ∃ t n vals2,
        (pages (pf + fuel - 1)).next_key = some t ∧
        py_int_parse t = some n ∧
        gad_go pages pf fuel vals sp tc =
          .ok (pf + fuel, vals2, some n,
            (pages (pf + fuel - 1)).total_count) := by
  intro fuel
  induction fuel with
  | zero =>
    intro pf vals sp tc hpos
    omega
  | succ f ih =>
    intro pf vals sp tc hpos hj
    obtain ⟨t0, n0, h00, h01⟩ := hj 0 (by omega)
    simp only [Nat.add_zero] at h00
    rcases Nat.eq_zero_or_pos f with hf | hf
    · subst hf
      refine ⟨t0, n0, vals ++ (pages pf).values, by simpa using h00, h01, ?_⟩
      simp [gad_go, h00, h01]
    · have hshift : ∀ j, j < f →
          ∃ t n, (pages (pf + 1 + j)).next_key = some t ∧
            py_int_parse t = some n := by
        intro j hjlt
        have h := hj (j + 1) (by omega)
        have e : pf + (j + 1) = pf + 1 + j := by omega
        rwa [e] at h
      obtain ⟨t, n, vals2, ha, hb, hc⟩ := ih (pf + 1)
        (vals ++ (pages pf).values) (some n0) ((pages pf).total_count) hf
        hshift
      have e1 : pf + (f + 1) = pf + 1 + f := by omega
      rw [e1]
      refine ⟨t, n, vals2, ha, hb, ?_⟩
      simp only [gad_go, h00, h01]
      exact hc

/-- Counterexample for C10: with a single page carrying no continuation
token and maxPages 1, the merged result reports the next_key "None" —
`str(None)` — although no server token exists at all, so the reported key
is not the decimal rendering of any token (it does not even parse). -/
theorem gad_token_canonical_cex :
    get_all_data "s" (fun _ =>
      { values := [(0 : Nat)], total_count := 1, next_key := none }) 1 =
      .ok { stats_id := "s", total_count := 1, values := [0],
            next_key := some "None" } ∧
    (∀ i : Nat, ((fun _ =>
      { values := [(0 : Nat)], total_count := 1, next_key := none } :
        Nat → PageM Nat) i).next_key = none) ∧
    py_int_parse "None" = none := ⟨rfl, fun _ => rfl, rfl⟩

/-- C10 (amended): continuation tokens are converted with `int()`: the
first non-numeric token raises ValueError (after all earlier tokens
parsed); when the loop is stopped by the page count with every page
carrying a parseable token, the reported next_key is the canonical
decimal rendering `str(int(t))` of the last consumed token, not the
server token verbatim (e.g. "0101" is reported as "101"); only at the
natural-end-on-the-last-page boundary can a non-canonical key (a stale
token or the string "None") be reported. -/
theorem gad_token_spec :
    (∀ (sid : String) (pages : Nat → PageM Nat) (mp i : Nat) (t : String),
      i < mp →
      (∀ j, j < i → ∃ t2 n, (pages j).next_key = some t2 ∧
        py_int_parse t2 = some n) →
      (pages i).next_key = some t → py_int_parse t = none →
      get_all_data sid pages mp = .error (.valueError t)) ∧
    (∀ (sid : String) (pages : Nat → PageM Nat) (mp : Nat), 0 < mp →
      (∀ j, j < mp → ∃ t n, (pages j).next_key = some t ∧
        py_int_parse t = some n) →
      ∃ t n, (pages (mp - 1)).next_key = some t ∧
        py_int_parse t = some n ∧
        (get_all_data sid pages mp).map (fun d => d.next_key) =
          .ok (some (toString n))) ∧
    get_all_data "s" (fun _ =>
      { values := [(0 : Nat)], total_count := 5, next_key := some "0101" })
      2 =
      .ok { stats_id := "s", total_count := 5, values := [0, 0],
            next_key := some "101" } := by
  refine ⟨?_, ?_, rfl⟩
  · intro sid pages mp i t hi hj ht hp
    have h := gad_go_valueerror pages t i 0 mp [] none 0 hi
      (by intro j hjlt; simpa using hj j hjlt) (by simpa using ht) hp
    simp [get_all_data, h]
  · intro sid pages mp hpos hj
    obtain ⟨t, n, vals2, ha, hb, hc⟩ := gad_go_all_tokens pages mp 0 [] none 0
      hpos (by intro j hjlt; simpa using hj j hjlt)
    refine ⟨t, n, by simpa using ha, hb, ?_⟩
    simp only [Nat.zero_add] at hc
    simp [get_all_data, hc, py_str_opt_int, Except.map]

/-- Witness for C10: a non-numeric token "x" raises at once; with every
page carrying token "7", maxPages 2 reports next_key "7". -/
theorem gad_token_spec_witness :
    py_int_parse "x" = none ∧
    get_all_data "s" (fun _ =>
      { values := [(0 : Nat)], total_count := 1, next_key := some "x" }) 3 =
      .error (.valueError "x") ∧
    (∃ t n,
      ((fun _ =>
        { values := [(0 : Nat)], total_count := 1, next_key := some "7" } :
          Nat → PageM Nat) (2 - 1)).next_key = some t ∧
      py_int_parse t = some n ∧
      (get_all_data "s" (fun _ =>
        { values := [(0 : Nat)], total_count := 1, next_key := some "7" })
        2).map (fun d => d.next_key) = .ok (some (toString n))) :=
  ⟨rfl,
   gad_token_spec.1 "s" _ 3 0 "x" (by omega)
     (fun j hj => absurd hj (Nat.not_lt_zero j)) rfl rfl,
   gad_token_spec.2.1 "s"
     (fun _ =>
       { values := [(0 : Nat)], total_count := 1, next_key := some "7" })
     2 (by omega) (fun j hj => ⟨"7", 7, rfl, rfl⟩)⟩

end EstatMCP
